import Mathlib

/-!
Shallow embedding of `src/src/drivex_decision/scripts/decision_maker.py`
(the decision/control loop of the drivex self-driving-car simulator).

Python floats are modelled as rationals (no claim depends on binary
floating-point rounding).  The ROS transport, OpenCV display and console
I/O are modelled as an explicit event trace emitted by one tick of the
control loop; `json.loads` is modelled by passing the handler the parse
result (`Option JVal`), since the JSON parser is library code.
-/

namespace DecisionMaker

/-- Camera frame handle: the image content is never inspected by the
decision logic (`config["img_rgb"]` is only displayed), so a frame is an
abstract token. -/
abbrev Frame := Nat

/-- One 3-vector of a `geometry_msgs/Twist` message. -/
structure Vector3 where
  x : ℚ
  y : ℚ
  z : ℚ
  deriving DecidableEq, Repr

/-- The `geometry_msgs/Twist` actuation message (lines 13, 94). -/
structure Twist where
  linear : Vector3
  angular : Vector3
  deriving DecidableEq, Repr

/-- The `model` sub-record of the model metadata yaml
(`info_loaded["model"]`, lines 121-123 and 180-201).  Only the two
feedback keys are touched by the shutdown path; a key absent from the
dict is `none`. -/
structure ModelInfo where
  driving_comments : Option String
  driving_model_eval : Option String
  deriving DecidableEq, Repr

/-- The shared mutable `config` dict (lines 77-93).  `vel` starts as
Python `None` and is only ever written by the (disabled) policy block;
`velocity`, `steering`, `crosswalk` are initialised to 0 at lines 90-92;
`signal` and `img_rgb` start as `None`; `begin_img` starts `False`. -/
structure Config where
  vel : Option ℚ
  signal : Option String
  img_rgb : Option Frame
  steering : ℚ
  velocity : ℚ
  crosswalk : ℚ
  begin_img : Bool
  deriving DecidableEq, Repr

/-- The starting values given to `config` at lines 77-93. -/
def initialConfig : Config :=
  { vel := none
    signal := none
    img_rgb := none
    steering := 0
    velocity := 0
    crosswalk := 0
    begin_img := false }

/-- `crosswalk_timeout = 0.18` (line 95). -/
def crosswalk_timeout : ℚ := 18 / 100

/-- `crosswalk_threshold = 0.85` (line 96). -/
def crosswalk_threshold : ℚ := 85 / 100

/-- `ord("q")` (line 176): cv2.waitKey key code of the abort key. -/
def qKey : Nat := 113

/-! ## JSON values and the Python decode chain used by
`modelSteeringVelocityCallback` -/

/-- A decoded JSON value, the possible results of `json.loads`. -/
inductive JVal where
  | jnull : JVal
  | jbool : Bool → JVal
  | jnum : ℚ → JVal
  | jstr : String → JVal
  | jarr : List JVal → JVal
  | jobj : List (String × JVal) → JVal

/-- Lookup in a JSON object keeping the LAST binding of a duplicated key,
as Python dict construction by `json.loads` does. -/
def lookupLast : List (String × JVal) → String → Option JVal
  | [], _ => none
  | (k, v) :: rest, key =>
    match lookupLast rest key with
    | some r => some r
    | none => if k = key then some v else none

/-- Python subscript `data[key]`: succeeds only when `data` is a dict
containing `key`; on any other value it raises (TypeError / KeyError),
modelled as `none`. -/
def jGet : JVal → String → Option JVal
  | JVal.jobj l, key => lookupLast l key
  | _, _ => none

/-- Value of a list of decimal digit characters. -/
def digitsToNat (l : List Char) : Nat :=
  l.foldl (fun a c => 10 * a + (c.toNat - 48)) 0

/-- Unsigned decimal literal: digits with an optional fractional part,
at least one digit overall. -/
def parseUnsigned (cs : List Char) : Option ℚ :=
  let intPart := cs.takeWhile Char.isDigit
  let rest := cs.drop intPart.length
  match rest with
  | [] => if intPart.isEmpty then none else some (digitsToNat intPart : ℚ)
  | c :: frac =>
    if c = '.' ∧ frac.all Char.isDigit ∧ ¬(intPart.isEmpty ∧ frac.isEmpty) then
      some ((digitsToNat intPart : ℚ) +
        (digitsToNat frac : ℚ) / (10 : ℚ) ^ frac.length)
    else none

/-- Python `float(s)` on a string, restricted to plain decimal literals
with an optional sign.  The exponent, infinity, nan, underscore and
surrounding-whitespace forms Python also accepts are not modelled; no
claim depends on them. -/
def parseDecimalString (s : String) : Option ℚ :=
  match s.data with
  | '-' :: rest => (parseUnsigned rest).map (fun q => -q)
  | '+' :: rest => parseUnsigned rest
  | cs => parseUnsigned cs

/-- Python `float(v)` on a decoded JSON value: numbers are returned,
booleans coerce to 1/0, numeric strings are parsed, and `None`, lists
and dicts raise TypeError (`none`). -/
def pyFloat : JVal → Option ℚ
  | JVal.jnum q => some q
  | JVal.jbool b => some (if b then 1 else 0)
  | JVal.jstr s => parseDecimalString s
  | _ => none

/-- The decode chain `float(data[key])` applied to the result of
`json.loads` (`none` when the parse itself already raised). -/
def msvDecodeField (payload : Option JVal) (key : String) : Option ℚ :=
  match payload with
  | none => none
  | some data =>
    match jGet data key with
    | none => none
    | some v => pyFloat v

/-! ## Update handlers (lines 44-61) -/

/-- `modelSteeringVelocityCallback` (lines 44-47): parse the payload,
assign `config["steering"]`, then assign `config["velocity"]`.  The
returned Bool is true when an exception escaped the handler (to the
transport layer); note the steering assignment happens BEFORE the
velocity decode, so a payload whose velocity field fails to decode
leaves the state partially updated. -/
def modelSteeringVelocityCallback (payload : Option JVal) (config : Config) :
    Config × Bool :=
  match msvDecodeField payload "steering" with
  | none => (config, true)
  | some s =>
    let config1 := { config with steering := s }
    match msvDecodeField payload "velocity" with
    | none => (config1, true)
    | some v => ({ config1 with velocity := v }, false)

/-- `crosswalkSurenessCallback` (lines 50-51). -/
def crosswalkSurenessCallback (message : ℚ) (config : Config) : Config :=
  { config with crosswalk := message }

/-- `signalCallback` (lines 54-55). -/
def signalCallback (message : String) (config : Config) : Config :=
  { config with signal := some message }

/-- `imgRgbCallback` (lines 58-61): store the decoded frame and set
`begin_img` to true. -/
def imgRgbCallback (message : Frame) (config : Config) : Config :=
  { config with img_rgb := some message, begin_img := true }

/-! ## Metadata append (shutdown, lines 180-201) -/

/-- Lines 182-187: first comment is stored verbatim, later comments are
appended after a "; " separator. -/
def appendComments (info : ModelInfo) (comments : String) : ModelInfo :=
  match info.driving_comments with
  | none => { info with driving_comments := some comments }
  | some old => { info with driving_comments := some (old ++ "; " ++ comments) }

/-- Lines 196-201: same append rule for the `driving_model_eval` key. -/
def appendModelEval (info : ModelInfo) (model_eval : String) : ModelInfo :=
  match info.driving_model_eval with
  | none => { info with driving_model_eval := some model_eval }
  | some old => { info with driving_model_eval := some (old ++ "; " ++ model_eval) }

/-! ## One tick of the control loop (lines 141-214) -/

/-- Externally observable actions of one tick, in program order. -/
inductive Event where
  | display : Option Frame → ℚ → Event
  | sleepFor : ℚ → Event
  | publish : Twist → Event
  | promptComments : Event
  | promptEval : Event
  | persist : ModelInfo → Event
  | exitProc : Nat → Event
  | rateSleep : Event
  deriving DecidableEq, Repr

/-- Result of one tick: the shared state, the in-memory metadata record,
and the emitted event trace. -/
structure TickOut where
  config : Config
  info : ModelInfo
  events : List Event
  deriving DecidableEq, Repr

/-- Python `round` half-to-even on a rational. -/
def roundHalfEven (q : ℚ) : ℤ :=
  let f := ⌊q⌋
  let r := q - (f : ℚ)
  if r < 1 / 2 then f
  else if r > 1 / 2 then f + 1
  else if f % 2 = 0 then f else f + 1

/-- `round(x, 2)` (line 145): round to two decimal places. -/
def round2 (q : ℚ) : ℚ := (roundHalfEven (q * 100) : ℚ) / 100

/-- `gracefulStop` (lines 64-73): zero `linear.x` and `angular.z` of the
given twist and publish it once. -/
def gracefulStop (twist : Twist) : Twist × List Event :=
  let t := { twist with
    linear := { twist.linear with x := 0 }
    angular := { twist.angular with z := 0 } }
  (t, [Event.publish t])

/-- One iteration of the `while` loop (lines 141-214) as executed: the
policy block at lines 152-165 is commented out in the source and is
therefore ABSENT here (see `tickWithPolicy` for the disabled block).

Environment of the iteration: `info` is the in-memory metadata record,
`comments` and `evalInput` are the strings the operator would type at
the two `input()` prompts, `key` is the value `cv2.waitKey` returned.
All six twist fields are assigned at lines 168-173 before any use, so
the persistent `twist` object needs no parameter here.  `print` calls
are console noise and are not traced. -/
def tick (info : ModelInfo) (comments evalInput : String) (config : Config)
    (key : Nat) : TickOut :=
  if config.begin_img = false then
    -- line 142-143: `continue`, the tick is skipped entirely
    ⟨config, info, []⟩
  else
    -- lines 145-150: overlay the confidence percentage and show the frame
    let percentage := round2 (config.crosswalk * 100)
    let dispEv := Event.display config.img_rgb percentage
    -- lines 168-173: assemble the twist from the shared state
    let twist : Twist := ⟨⟨config.velocity, 0, 0⟩, ⟨0, 0, config.steering⟩⟩
    if key = qKey then
      -- lines 176-209: shutdown sequence
      let (_, pubEvs) := gracefulStop twist
      let info1 := appendComments info comments
      let info2 := appendModelEval info1 (evalInput ++ "/10")
      ⟨config, info2,
        dispEv :: pubEvs ++
          [Event.promptComments, Event.promptEval,
           Event.persist info2, Event.exitProc 0]⟩
    else
      -- lines 212-214: publish the twist and wait for the next tick
      ⟨config, info, [dispEv, Event.publish twist, Event.rateSleep]⟩

/-- The commented-out decision block, lines 153-165, as it would run if
enabled.  Returns the updated config, its events, and whether the
`pChess` branch called `exit(0)`.  `twist0` is the persistent twist
object, whose value the `pChess` branch publishes via `gracefulStop`
BEFORE the assignments of lines 168-173.  Note every branch writes the
key `config["vel"]`, which no other line of the program reads (the
published velocity is `config["velocity"]`, line 168). -/
def policyStep (linear_velocity : ℚ) (twist0 : Twist) (config : Config) :
    Config × List Event × Bool :=
  if config.signal = some "pForward" ∧ config.vel ≠ some linear_velocity then
    ({ config with vel := some linear_velocity }, [], false)
  else if config.signal = some "pStop" ∧ config.crosswalk > crosswalk_threshold then
    -- line 157: the branch sleeps the THRESHOLD constant, 0.85 s
    ({ config with vel := some 0 }, [Event.sleepFor crosswalk_threshold], false)
  else if config.signal = some "pChess" ∧ config.crosswalk > crosswalk_threshold then
    let (_, pubEvs) := gracefulStop twist0
    ({ config with vel := some 0 },
      Event.sleepFor crosswalk_timeout :: pubEvs ++ [Event.exitProc 0], true)
  else (config, [], false)

/-- The loop iteration with the disabled policy block (lines 152-165)
re-enabled, for comparison with the spec's intended design.  Identical
to `tick` except that `policyStep` runs between the `waitKey` call and
the twist assembly, and the `pChess` branch terminates the iteration. -/
def tickWithPolicy (linear_velocity : ℚ) (info : ModelInfo)
    (comments evalInput : String) (twist0 : Twist) (config : Config)
    (key : Nat) : TickOut :=
  if config.begin_img = false then
    ⟨config, info, []⟩
  else
    let percentage := round2 (config.crosswalk * 100)
    let dispEv := Event.display config.img_rgb percentage
    let (config1, polEvs, terminated) := policyStep linear_velocity twist0 config
    if terminated then
      ⟨config1, info, dispEv :: polEvs⟩
    else
      let twist : Twist := ⟨⟨config1.velocity, 0, 0⟩, ⟨0, 0, config1.steering⟩⟩
      if key = qKey then
        let (_, pubEvs) := gracefulStop twist
        let info1 := appendComments info comments
        let info2 := appendModelEval info1 (evalInput ++ "/10")
        ⟨config1, info2,
          dispEv :: polEvs ++ pubEvs ++
            [Event.promptComments, Event.promptEval,
             Event.persist info2, Event.exitProc 0]⟩
      else
        ⟨config1, info,
          dispEv :: polEvs ++ [Event.publish twist, Event.rateSleep]⟩

/-! ## Trace projections -/

/-- The twists published by a trace, in order. -/
def publishedTwists : List Event → List Twist
  | [] => []
  | Event.publish t :: rest => t :: publishedTwists rest
  | _ :: rest => publishedTwists rest

/-- The sleep durations of a trace, in order. -/
def sleepDurations : List Event → List ℚ
  | [] => []
  | Event.sleepFor d :: rest => d :: sleepDurations rest
  | _ :: rest => sleepDurations rest

/-- The process-exit codes of a trace, in order. -/
def exitCodes : List Event → List Nat
  | [] => []
  | Event.exitProc c :: rest => c :: exitCodes rest
  | _ :: rest => exitCodes rest

/-- The display events of a trace, in order. -/
def displayCount : List Event → Nat
  | [] => 0
  | Event.display _ _ :: rest => displayCount rest + 1
  | _ :: rest => displayCount rest


/-! ## Helper lemma shared by several claims -/

/-- The model steering/velocity handler has exactly three outcomes:
everything fails before the first assignment, the steering assignment
happens and the velocity decode fails, or both assignments happen. -/
theorem msv_shape (payload : Option JVal) (config : Config) :
    modelSteeringVelocityCallback payload config = (config, true) ∨
    (∃ s, msvDecodeField payload "steering" = some s ∧
      modelSteeringVelocityCallback payload config
        = ({ config with steering := s }, true)) ∨
    (∃ s v, msvDecodeField payload "steering" = some s ∧
      msvDecodeField payload "velocity" = some v ∧
      modelSteeringVelocityCallback payload config
        = ({ config with steering := s, velocity := v }, false)) := by
  rcases hs : msvDecodeField payload "steering" with _ | s
  · left
    simp [modelSteeringVelocityCallback, hs]
  · rcases hv : msvDecodeField payload "velocity" with _ | v
    · right; left
      exact ⟨s, rfl, by simp [modelSteeringVelocityCallback, hs, hv]⟩
    · right; right
      exact ⟨s, v, rfl, rfl, by simp [modelSteeringVelocityCallback, hs, hv]⟩

/-! ## Concrete states used by the settled claims -/

/-- An Active state carrying a stop signal and high crosswalk confidence
(0.9 > threshold 0.85), with the model reporting velocity 0.5 and
steering 0.25. -/
def cfgStop : Config :=
  { vel := some 0
    signal := some "pStop"
    img_rgb := some 1
    steering := 1 / 4
    velocity := 1 / 2
    crosswalk := 9 / 10
    begin_img := true }

/-- An Active state carrying the chessboard signal and crosswalk
confidence 0.95, with the model reporting velocity 0.3 and steering 0.2. -/
def cfgChess : Config :=
  { vel := some 0
    signal := some "pChess"
    img_rgb := some 2
    steering := 1 / 5
    velocity := 3 / 10
    crosswalk := 19 / 20
    begin_img := true }

/-- An Active state carrying the forward signal, with last-applied
velocity 0 differing from a cruise velocity of 0.8, and the model
reporting velocity 0.3 and steering 0.2. -/
def cfgFwd : Config :=
  { vel := some 0
    signal := some "pForward"
    img_rgb := some 3
    steering := 1 / 5
    velocity := 3 / 10
    crosswalk := 0
    begin_img := true }

/-- An Active state whose signal matches none of the three policy rules. -/
def cfgPass : Config :=
  { vel := none
    signal := some "other"
    img_rgb := some 4
    steering := 3
    velocity := 2
    crosswalk := 1 / 2
    begin_img := true }

/-- An Active state used to exercise the operator-abort shutdown path. -/
def cfgAbortW : Config :=
  { vel := none
    signal := none
    img_rgb := some 5
    steering := 5
    velocity := 2
    crosswalk := 1 / 4
    begin_img := true }

/-- First of a pair of Active states agreeing on velocity and steering. -/
def cfgNiA : Config :=
  { vel := some 0
    signal := some "pStop"
    img_rgb := some 6
    steering := 3
    velocity := 2
    crosswalk := 1
    begin_img := true }

/-- Second of the pair: same velocity and steering as `cfgNiA`, entirely
different signal and crosswalk confidence. -/
def cfgNiB : Config :=
  { vel := some 0
    signal := none
    img_rgb := some 6
    steering := 3
    velocity := 2
    crosswalk := 0
    begin_img := true }

/-- A steering/velocity payload whose steering field decodes but whose
velocity field is JSON null, so `float(...)` raises on it. -/
def msvBadPayload : Option JVal :=
  some (JVal.jobj [("steering", JVal.jnum 1), ("velocity", JVal.jnull)])


/-! ## Claims C1-C3: the decision-policy rules

The policy block at source lines 152-165 is commented out, so the
executed tick applies no rule: these theorems evaluate the executed
code at states satisfying each rule's guard. -/

/-- C1: the claim says an Active tick with signal "pStop"
("StopPermitted") and crosswalkConfidence 0.9 above the 0.85 threshold
blocks for crosswalkStopDuration and then publishes velocity 0.  The
code does neither: the policy block (lines 152-165) is commented out,
so this tick performs no sleep and publishes the model velocity 0.5
unchanged (and even the disabled block only writes the dead field
config.vel, see `tickWithPolicy_stop_publishes_model_velocity`). -/
theorem C1_crosswalk_stop_code_bug :
    publishedTwists (tick ⟨none, none⟩ "" "" cfgStop 0).events
      = [⟨⟨1 / 2, 0, 0⟩, ⟨0, 0, 1 / 4⟩⟩] ∧
    sleepDurations (tick ⟨none, none⟩ "" "" cfgStop 0).events = [] ∧
    ((1 : ℚ) / 2 ≠ 0 ∧ cfgStop.crosswalk > crosswalk_threshold) := by
  norm_num [tick, cfgStop, qKey, publishedTwists, sleepDurations, crosswalk_threshold]

/-- C2: the claim says an Active tick with signal "pChess"
("ChessboardMarker") and crosswalkConfidence 0.95 blocks, publishes a
zero twist and terminates the program.  The executed code does none of
this — the policy block is commented out — so the tick publishes the
model velocity 0.3 unchanged and emits no exit.  (With the block
enabled the claim would hold: `tickWithPolicy_chess_matches_claim`.) -/
theorem C2_chessboard_termination_code_bug :
    publishedTwists (tick ⟨none, none⟩ "" "" cfgChess 0).events
      = [⟨⟨3 / 10, 0, 0⟩, ⟨0, 0, 1 / 5⟩⟩] ∧
    exitCodes (tick ⟨none, none⟩ "" "" cfgChess 0).events = [] ∧
    ((3 : ℚ) / 10 ≠ 0 ∧ cfgChess.crosswalk > crosswalk_threshold) := by
  norm_num [tick, cfgChess, qKey, publishedTwists, exitCodes, crosswalk_threshold]

/-- C3: the claim says an Active tick with signal "pForward"
("ForwardPermitted") and last-applied velocity (config.vel = 0)
different from the cruise velocity 0.8 publishes velocity 0.8.  The
executed code publishes the model velocity 0.3 unchanged: the policy
block is commented out, and even enabled it writes only the dead field
config.vel while line 168 publishes config.velocity
(`tickWithPolicy_forward_publishes_model_velocity`). -/
theorem C3_cruise_resume_code_bug :
    publishedTwists (tick ⟨none, none⟩ "" "" cfgFwd 0).events
      = [⟨⟨3 / 10, 0, 0⟩, ⟨0, 0, 1 / 5⟩⟩] ∧
    cfgFwd.vel ≠ some (4 / 5) ∧ (3 : ℚ) / 10 ≠ 4 / 5 := by
  norm_num [tick, cfgFwd, qKey, publishedTwists]

/-- C4: while begin_img (frameReady) is false the tick is skipped
entirely: the event trace is empty, so nothing is published and nothing
is displayed. -/
theorem C4_idle_gating (info : ModelInfo) (comments evalInput : String)
    (config : Config) (key : Nat) (h : config.begin_img = false) :
    tick info comments evalInput config key = ⟨config, info, []⟩ ∧
    publishedTwists (tick info comments evalInput config key).events = [] ∧
    displayCount (tick info comments evalInput config key).events = 0 := by
  refine ⟨?_, ?_, ?_⟩ <;> simp [tick, h, publishedTwists, displayCount]

/-- Witness for C4 at the process's initial state. -/
theorem C4_idle_gating_witness :
    tick ⟨none, none⟩ "" "" initialConfig 0 = ⟨initialConfig, ⟨none, none⟩, []⟩ ∧
    publishedTwists (tick ⟨none, none⟩ "" "" initialConfig 0).events = [] ∧
    displayCount (tick ⟨none, none⟩ "" "" initialConfig 0).events = 0 :=
  C4_idle_gating ⟨none, none⟩ "" "" initialConfig 0 rfl

/-- C5: on an Active tick with no abort key (and a signal matching none
of the three policy rules' names), the published command is exactly
linear = (model velocity, 0, 0), angular = (0, 0, model steering). -/
theorem C5_passthrough_exact (info : ModelInfo) (comments evalInput : String)
    (config : Config) (key : Nat) (h : config.begin_img = true)
    (_hs1 : config.signal ≠ some "pForward") (_hs2 : config.signal ≠ some "pStop")
    (_hs3 : config.signal ≠ some "pChess") (hk : key ≠ qKey) :
    tick info comments evalInput config key =
      ⟨config, info,
        [Event.display config.img_rgb (round2 (config.crosswalk * 100)),
         Event.publish ⟨⟨config.velocity, 0, 0⟩, ⟨0, 0, config.steering⟩⟩,
         Event.rateSleep]⟩ := by
  simp [tick, h, hk]

/-- Witness for C5 at a concrete non-matching Active state. -/
theorem C5_passthrough_exact_witness :
    tick ⟨none, none⟩ "" "" cfgPass 0 =
      ⟨cfgPass, ⟨none, none⟩,
        [Event.display cfgPass.img_rgb (round2 (cfgPass.crosswalk * 100)),
         Event.publish ⟨⟨cfgPass.velocity, 0, 0⟩, ⟨0, 0, cfgPass.steering⟩⟩,
         Event.rateSleep]⟩ :=
  C5_passthrough_exact ⟨none, none⟩ "" "" cfgPass 0 rfl (by decide) (by decide)
    (by decide) (by decide)

/-- C6: when the abort key is read on an Active tick, the shutdown steps
run strictly in order: exactly one publish (the all-zero graceful-stop
twist), then the comments prompt, then the rating prompt, then
persistence of the record with both fields appended, then exit 0 — and
no publish event follows the graceful stop. -/
theorem C6_shutdown_sequence (info : ModelInfo) (comments evalInput : String)
    (config : Config) (h : config.begin_img = true) :
    tick info comments evalInput config qKey =
      ⟨config,
        appendModelEval (appendComments info comments) (evalInput ++ "/10"),
        [Event.display config.img_rgb (round2 (config.crosswalk * 100)),
         Event.publish ⟨⟨0, 0, 0⟩, ⟨0, 0, 0⟩⟩,
         Event.promptComments, Event.promptEval,
         Event.persist
           (appendModelEval (appendComments info comments) (evalInput ++ "/10")),
         Event.exitProc 0]⟩ ∧
    publishedTwists (tick info comments evalInput config qKey).events
      = [⟨⟨0, 0, 0⟩, ⟨0, 0, 0⟩⟩] := by
  constructor <;> simp [tick, h, gracefulStop, publishedTwists]

/-- Witness for C6 at a concrete Active state with concrete operator
input. -/
theorem C6_shutdown_sequence_witness :
    tick ⟨none, none⟩ "good" "9" cfgAbortW qKey =
      ⟨cfgAbortW, ⟨some "good", some "9/10"⟩,
        [Event.display cfgAbortW.img_rgb (round2 (cfgAbortW.crosswalk * 100)),
         Event.publish ⟨⟨0, 0, 0⟩, ⟨0, 0, 0⟩⟩,
         Event.promptComments, Event.promptEval,
         Event.persist ⟨some "good", some "9/10"⟩, Event.exitProc 0]⟩ ∧
    publishedTwists (tick ⟨none, none⟩ "good" "9" cfgAbortW qKey).events
      = [⟨⟨0, 0, 0⟩, ⟨0, 0, 0⟩⟩] :=
  C6_shutdown_sequence ⟨none, none⟩ "good" "9" cfgAbortW rfl

/-- C7 counterexample: a malformed payload whose steering field decodes
but whose velocity field is null raises out of the handler, yet the
steering slot has already been overwritten — it does not retain its
prior value, refuting the claim's no-partial-update part. -/
theorem C7_partial_update_counterexample :
    (modelSteeringVelocityCallback msvBadPayload initialConfig).2 = true ∧
    (modelSteeringVelocityCallback msvBadPayload initialConfig).1.steering = 1 ∧
    initialConfig.steering = 0 := by decide

/-- C7 amended: a payload that fails before the steering assignment
leaves the whole state unchanged; one that fails at the velocity decode
updates steering and leaves velocity unchanged; whenever the handler
raises (to the transport layer, never into the control loop), velocity
retains its prior value. -/
theorem C7_decode_resilience_amended (payload : Option JVal) (config : Config) :
    (msvDecodeField payload "steering" = none →
      modelSteeringVelocityCallback payload config = (config, true)) ∧
    (∀ s, msvDecodeField payload "steering" = some s →
      msvDecodeField payload "velocity" = none →
      modelSteeringVelocityCallback payload config
        = ({ config with steering := s }, true)) ∧
    ((modelSteeringVelocityCallback payload config).2 = true →
      (modelSteeringVelocityCallback payload config).1.velocity
        = config.velocity) := by
  rcases hs : msvDecodeField payload "steering" with _ | s
  · simp [modelSteeringVelocityCallback, hs]
  · rcases hv : msvDecodeField payload "velocity" with _ | v <;>
      simp [modelSteeringVelocityCallback, hs, hv]

/-- Witness for C7's amended statement at a failed parse and at the
partial-update payload. -/
theorem C7_decode_resilience_amended_witness :
    modelSteeringVelocityCallback none initialConfig = (initialConfig, true) ∧
    modelSteeringVelocityCallback msvBadPayload initialConfig
      = ({ initialConfig with steering := 1 }, true) :=
  ⟨(C7_decode_resilience_amended none initialConfig).1 rfl,
   (C7_decode_resilience_amended msvBadPayload initialConfig).2.1 1
     (by decide) (by decide)⟩

/-- C8: the first comment is stored verbatim, a later comment is
appended to the old value after a "; " separator, the rating is stored
as the "<rating>/10" string under the same rule, and each append leaves
the other metadata field untouched. -/
theorem C8_metadata_append (dc de : Option String) (old comments rating : String) :
    (appendComments ⟨none, de⟩ comments).driving_comments = some comments ∧
    (appendComments ⟨some old, de⟩ comments).driving_comments
      = some (old ++ "; " ++ comments) ∧
    (appendModelEval ⟨dc, none⟩ (rating ++ "/10")).driving_model_eval
      = some (rating ++ "/10") ∧
    (appendModelEval ⟨dc, some old⟩ (rating ++ "/10")).driving_model_eval
      = some (old ++ "; " ++ (rating ++ "/10")) ∧
    (appendComments ⟨some old, de⟩ comments).driving_model_eval = de ∧
    (appendModelEval ⟨dc, some old⟩ (rating ++ "/10")).driving_comments = dc :=
  ⟨rfl, rfl, rfl, rfl, rfl, rfl⟩

/-- C9 counterexample: the camera-frame handler mutates TWO slots of the
shared state in one invocation (img_rgb and begin_img), refuting
"mutates exactly one slot". -/
theorem C9_single_slot_counterexample :
    (imgRgbCallback 7 initialConfig).img_rgb ≠ initialConfig.img_rgb ∧
    (imgRgbCallback 7 initialConfig).begin_img ≠ initialConfig.begin_img := by
  decide

/-- C9 amended: each handler writes only the slots it owns — the signal
handler one slot, the crosswalk handler one slot, the camera handler
the frame slot plus the begin_img flag, the steering/velocity handler
the steering and velocity slots — and every slot a handler does not own
is unchanged by the call. -/
theorem C9_handlers_frame_effect_amended (message : String) (q : ℚ)
    (frame : Frame) (payload : Option JVal) (config : Config) :
    ((signalCallback message config).signal = some message ∧
     (signalCallback message config).vel = config.vel ∧
     (signalCallback message config).img_rgb = config.img_rgb ∧
     (signalCallback message config).steering = config.steering ∧
     (signalCallback message config).velocity = config.velocity ∧
     (signalCallback message config).crosswalk = config.crosswalk ∧
     (signalCallback message config).begin_img = config.begin_img) ∧
    ((crosswalkSurenessCallback q config).crosswalk = q ∧
     (crosswalkSurenessCallback q config).vel = config.vel ∧
     (crosswalkSurenessCallback q config).signal = config.signal ∧
     (crosswalkSurenessCallback q config).img_rgb = config.img_rgb ∧
     (crosswalkSurenessCallback q config).steering = config.steering ∧
     (crosswalkSurenessCallback q config).velocity = config.velocity ∧
     (crosswalkSurenessCallback q config).begin_img = config.begin_img) ∧
    ((imgRgbCallback frame config).img_rgb = some frame ∧
     (imgRgbCallback frame config).begin_img = true ∧
     (imgRgbCallback frame config).vel = config.vel ∧
     (imgRgbCallback frame config).signal = config.signal ∧
     (imgRgbCallback frame config).steering = config.steering ∧
     (imgRgbCallback frame config).velocity = config.velocity ∧
     (imgRgbCallback frame config).crosswalk = config.crosswalk) ∧
    ((modelSteeringVelocityCallback payload config).1.vel = config.vel ∧
     (modelSteeringVelocityCallback payload config).1.signal = config.signal ∧
     (modelSteeringVelocityCallback payload config).1.img_rgb = config.img_rgb ∧
     (modelSteeringVelocityCallback payload config).1.crosswalk
       = config.crosswalk ∧
     (modelSteeringVelocityCallback payload config).1.begin_img
       = config.begin_img) := by
  refine ⟨⟨rfl, rfl, rfl, rfl, rfl, rfl, rfl⟩,
    ⟨rfl, rfl, rfl, rfl, rfl, rfl, rfl⟩,
    ⟨rfl, rfl, rfl, rfl, rfl, rfl, rfl⟩, ?_⟩
  rcases hs : msvDecodeField payload "steering" with _ | s
  · simp [modelSteeringVelocityCallback, hs]
  · rcases hv : msvDecodeField payload "velocity" with _ | v <;>
      simp [modelSteeringVelocityCallback, hs, hv]

/-- C10: two Active states that agree on the model-reported velocity and
steering publish identical commands on a non-abort tick, whatever their
signal and crosswalk-confidence slots hold: with the policy block
commented out, the published command is a function of velocity and
steering only. -/
theorem C10_noninterference (info : ModelInfo) (comments evalInput : String)
    (key : Nat) (c1 c2 : Config) (h1 : c1.begin_img = true)
    (h2 : c2.begin_img = true) (hv : c1.velocity = c2.velocity)
    (hs : c1.steering = c2.steering) (hk : key ≠ qKey) :
    publishedTwists (tick info comments evalInput c1 key).events =
      publishedTwists (tick info comments evalInput c2 key).events := by
  simp [tick, h1, h2, hk, publishedTwists, hv, hs]

/-- Witness for C10: one state holds a stop signal at full crosswalk
confidence, the other no signal at zero confidence; the published
commands coincide. -/
theorem C10_noninterference_witness :
    publishedTwists (tick ⟨none, none⟩ "" "" cfgNiA 0).events =
      publishedTwists (tick ⟨none, none⟩ "" "" cfgNiB 0).events :=
  C10_noninterference ⟨none, none⟩ "" "" 0 cfgNiA cfgNiB rfl rfl rfl rfl
    (by decide)

/-! ## The disabled policy block, evaluated for comparison -/

/-- With the commented-out block enabled, the chessboard branch behaves
exactly as claim C2 describes: sleep crosswalk_timeout, publish the
all-zero twist once, and exit 0 with no later publish. -/
theorem tickWithPolicy_chess_matches_claim :
    publishedTwists (tickWithPolicy (4 / 5) ⟨none, none⟩ "" ""
        ⟨⟨0, 0, 0⟩, ⟨0, 0, 0⟩⟩ cfgChess 0).events = [⟨⟨0, 0, 0⟩, ⟨0, 0, 0⟩⟩] ∧
    exitCodes (tickWithPolicy (4 / 5) ⟨none, none⟩ "" ""
        ⟨⟨0, 0, 0⟩, ⟨0, 0, 0⟩⟩ cfgChess 0).events = [0] ∧
    sleepDurations (tickWithPolicy (4 / 5) ⟨none, none⟩ "" ""
        ⟨⟨0, 0, 0⟩, ⟨0, 0, 0⟩⟩ cfgChess 0).events = [crosswalk_timeout] := by
  norm_num [tickWithPolicy, policyStep, cfgChess, crosswalk_threshold,
    crosswalk_timeout, gracefulStop, qKey, publishedTwists, exitCodes,
    sleepDurations]

/-- Even with the block enabled, the stop branch sleeps the THRESHOLD
constant (0.85 s) and writes only the dead field config.vel: the
published velocity is the unchanged model velocity 0.5, not 0. -/
theorem tickWithPolicy_stop_publishes_model_velocity :
    sleepDurations (tickWithPolicy (4 / 5) ⟨none, none⟩ "" ""
        ⟨⟨0, 0, 0⟩, ⟨0, 0, 0⟩⟩ cfgStop 0).events = [crosswalk_threshold] ∧
    publishedTwists (tickWithPolicy (4 / 5) ⟨none, none⟩ "" ""
        ⟨⟨0, 0, 0⟩, ⟨0, 0, 0⟩⟩ cfgStop 0).events
      = [⟨⟨1 / 2, 0, 0⟩, ⟨0, 0, 1 / 4⟩⟩] := by
  norm_num [tickWithPolicy, policyStep, cfgStop, crosswalk_threshold,
    gracefulStop, qKey, publishedTwists, sleepDurations]
  rw [if_neg (by decide)]
  norm_num [publishedTwists, sleepDurations]

/-- Even with the block enabled, the forward branch updates only
config.vel (to the cruise velocity 0.8); the published velocity stays
the model velocity 0.3. -/
theorem tickWithPolicy_forward_publishes_model_velocity :
    publishedTwists (tickWithPolicy (4 / 5) ⟨none, none⟩ "" ""
        ⟨⟨0, 0, 0⟩, ⟨0, 0, 0⟩⟩ cfgFwd 0).events
      = [⟨⟨3 / 10, 0, 0⟩, ⟨0, 0, 1 / 5⟩⟩] ∧
    (tickWithPolicy (4 / 5) ⟨none, none⟩ "" ""
        ⟨⟨0, 0, 0⟩, ⟨0, 0, 0⟩⟩ cfgFwd 0).config.vel = some (4 / 5) := by
  norm_num [tickWithPolicy, policyStep, cfgFwd, crosswalk_threshold,
    qKey, publishedTwists]

end DecisionMaker
